import Mathlib

/-!
Verification development for the ES51922 multimeter packet decoder
(`dmm_es51922.py`).  The decoder core is embedded shallowly: the lookup
tables (`FUNCTION`, the `RANGE_*` tables, `DIGITS`), the bit-template
decoder (`test_bit` / `get_bits`), the packet parser (`parse`) and the
human-readable renderer (`output_readable`).  Machine bytes are modelled
as `Nat`; dictionary lookups that may raise `KeyError` become `Option`;
exceptions raised by `parse` become an explicit `ParseError` sum
distinguishing the raise-site (the Python raises bare
`KeyError`/`ValueError`/`TypeError`/`AttributeError`).  `Decimal`
arithmetic on `magnitude / 10^precision` is exact, so the displayed
string is produced by `formatDecimal` and numeric values live in `ℚ`.
-/

/-- `test_bit(int_type, offset)` from the source: the bit at `offset`. -/
def test_bit (n : Nat) (off : Nat) : Bool := n.testBit off

/-- One position of a 7-element flag-byte template: either a fixed bit
(the Python literals `0` / `1`) or a named flag. -/
inductive TEntry where
  | fixed : Bool → TEntry
  | named : String → TEntry
deriving DecidableEq, Repr

/-- Loop body of `get_bits`: Python iterates `i in range(7)`, reads
`template[6-i]`, rejects on a fixed-bit mismatch, and otherwise records
`name → bit`. -/
def get_bits_go (b : Nat) (t : List TEntry) :
    List Nat → List (String × Bool) → Option (List (String × Bool))
  | [], acc => some acc
  | i :: rest, acc =>
    match t[6 - i]? with
    | none => none
    | some (TEntry.fixed bv) =>
      if test_bit b i = bv then get_bits_go b t rest acc else none
    | some (TEntry.named nm) =>
      get_bits_go b t rest (acc ++ [(nm, test_bit b i)])

/-- `get_bits(int_type, template)` from the source: decode one byte
against a 7-position template, `none` models the raised `ValueError`. -/
def get_bits (b : Nat) (t : List TEntry) : Option (List (String × Bool)) :=
  get_bits_go b t [0, 1, 2, 3, 4, 5, 6] []

/-- A range-table entry: either the numeric `(scale, precision, unit)`
triple or a bare descriptive string (as in `RANGE_ADP` and
`RANGE_CURRENT_AUTO`). -/
inductive RangeEntry where
  | triple : ℚ → ℕ → String → RangeEntry
  | label : String → RangeEntry
deriving DecidableEq, Repr

def RangeTable := Nat → Option RangeEntry

def RANGE_VOLTAGE : RangeTable := fun c =>
  match c with
  | 0b0110000 => some (RangeEntry.triple 1 4 "V")
  | 0b0110001 => some (RangeEntry.triple 1 3 "V")
  | 0b0110010 => some (RangeEntry.triple 1 2 "V")
  | 0b0110011 => some (RangeEntry.triple 1 1 "V")
  | 0b0110100 => some (RangeEntry.triple (1/1000) 2 "mV")
  | _ => none

def RANGE_CURRENT_AUTO_UA : RangeTable := fun c =>
  match c with
  | 0b0110000 => some (RangeEntry.triple (1/1000000) 2 "uA")
  | 0b0110001 => some (RangeEntry.triple (1/1000000) 1 "uA")
  | _ => none

def RANGE_CURRENT_AUTO_MA : RangeTable := fun c =>
  match c with
  | 0b0110000 => some (RangeEntry.triple (1/1000) 3 "mA")
  | 0b0110001 => some (RangeEntry.triple (1/1000) 2 "mA")
  | _ => none

/-- Present in the source but referenced by no `FUNCTION` entry. -/
def RANGE_CURRENT_AUTO : RangeTable := fun c =>
  match c with
  | 0b0110000 => some (RangeEntry.label "Lower Range (IVSL)")
  | 0b0110001 => some (RangeEntry.label "Higher Range (IVSH)")
  | _ => none

def RANGE_CURRENT_22A : RangeTable := fun c =>
  match c with
  | 0b0110000 => some (RangeEntry.triple 1 3 "A")
  | _ => none

def RANGE_CURRENT_MANUAL : RangeTable := fun c =>
  match c with
  | 0b0110000 => some (RangeEntry.triple 1 4 "A")
  | 0b0110001 => some (RangeEntry.triple 1 3 "A")
  | 0b0110010 => some (RangeEntry.triple 1 2 "A")
  | 0b0110011 => some (RangeEntry.triple 1 1 "A")
  | 0b0110100 => some (RangeEntry.triple 1 0 "A")
  | _ => none

def RANGE_ADP : RangeTable := fun c =>
  match c with
  | 0b0110000 => some (RangeEntry.label "ADP4")
  | 0b0110001 => some (RangeEntry.label "ADP3")
  | 0b0110010 => some (RangeEntry.label "ADP2")
  | 0b0110011 => some (RangeEntry.label "ADP1")
  | 0b0110100 => some (RangeEntry.label "ADP0")
  | _ => none

def RANGE_RESISTANCE : RangeTable := fun c =>
  match c with
  | 0b0110000 => some (RangeEntry.triple 1 2 "W")
  | 0b0110001 => some (RangeEntry.triple 1000 4 "kW")
  | 0b0110010 => some (RangeEntry.triple 1000 3 "kW")
  | 0b0110011 => some (RangeEntry.triple 1000 2 "kW")
  | 0b0110100 => some (RangeEntry.triple 1000000 4 "MW")
  | 0b0110101 => some (RangeEntry.triple 1000000 3 "MW")
  | 0b0110110 => some (RangeEntry.triple 1000000 2 "MW")
  | _ => none

def RANGE_FREQUENCY : RangeTable := fun c =>
  match c with
  | 0b0110000 => some (RangeEntry.triple 1 1 "Hz")
  | 0b0110001 => some (RangeEntry.triple 1 1 "Hz")
  | 0b0110011 => some (RangeEntry.triple 1000 3 "kHz")
  | 0b0110100 => some (RangeEntry.triple 1000 2 "kHz")
  | 0b0110101 => some (RangeEntry.triple 1000000 4 "MHz")
  | 0b0110110 => some (RangeEntry.triple 1000000 3 "MHz")
  | 0b0110111 => some (RangeEntry.triple 1000000 2 "MHz")
  | _ => none

def RANGE_CAPACITANCE : RangeTable := fun c =>
  match c with
  | 0b0110000 => some (RangeEntry.triple (1/1000000000) 3 "nF")
  | 0b0110001 => some (RangeEntry.triple (1/1000000000) 2 "nF")
  | 0b0110010 => some (RangeEntry.triple (1/1000000) 4 "uF")
  | 0b0110011 => some (RangeEntry.triple (1/1000000) 3 "uF")
  | 0b0110100 => some (RangeEntry.triple (1/1000000) 2 "uF")
  | 0b0110101 => some (RangeEntry.triple (1/1000) 4 "mF")
  | 0b0110110 => some (RangeEntry.triple (1/1000) 3 "mF")
  | 0b0110111 => some (RangeEntry.triple (1/1000) 2 "mF")
  | _ => none

def RANGE_DIODE : RangeTable := fun c =>
  match c with
  | 0b0110000 => some (RangeEntry.triple 1 4 "V")
  | _ => none

def RANGE_CONTINUITY : RangeTable := fun c =>
  match c with
  | 0b0110000 => some (RangeEntry.triple 1 2 "W")
  | _ => none

/-- `FUNCTION`: function code → `(mode, range table or None, unit)`. -/
def FUNCTION : Nat → Option (String × Option RangeTable × String) := fun c =>
  match c with
  | 0b0111011 => some ("voltage", some RANGE_VOLTAGE, "V")
  | 0b0111101 => some ("current", some RANGE_CURRENT_AUTO_UA, "A")
  | 0b0111111 => some ("current", some RANGE_CURRENT_AUTO_MA, "A")
  | 0b0110000 => some ("current", some RANGE_CURRENT_22A, "A")
  | 0b0111001 => some ("current", some RANGE_CURRENT_MANUAL, "A")
  | 0b0110011 => some ("resistance", some RANGE_RESISTANCE, "W")
  | 0b0110101 => some ("continuity", some RANGE_CONTINUITY, "W")
  | 0b0110001 => some ("diode", some RANGE_DIODE, "V")
  | 0b0110010 => some ("frequency", some RANGE_FREQUENCY, "Hz")
  | 0b0110110 => some ("capacitance", some RANGE_CAPACITANCE, "F")
  | 0b0110100 => some ("temperature", none, "deg")
  | 0b0111110 => some ("ADP", some RANGE_ADP, "")
  | _ => none

/-- `DIGITS`: the ten valid digit codes. -/
def DIGITS : Nat → Option Nat := fun c =>
  match c with
  | 0b0110000 => some 0
  | 0b0110001 => some 1
  | 0b0110010 => some 2
  | 0b0110011 => some 3
  | 0b0110100 => some 4
  | 0b0110101 => some 5
  | 0b0110110 => some 6
  | 0b0110111 => some 7
  | 0b0111000 => some 8
  | 0b0111001 => some 9
  | _ => none

def STATUS : List TEntry :=
  [TEntry.fixed false, TEntry.fixed true, TEntry.fixed true,
   TEntry.named "Judge", TEntry.named "Sign", TEntry.named "BATT",
   TEntry.named "OL"]

def OPTION1 : List TEntry :=
  [TEntry.fixed false, TEntry.fixed true, TEntry.fixed true,
   TEntry.named "MAX", TEntry.named "MIN", TEntry.named "REL",
   TEntry.named "RMR"]

def OPTION2 : List TEntry :=
  [TEntry.fixed false, TEntry.fixed true, TEntry.fixed true,
   TEntry.named "UL", TEntry.named "PMAX", TEntry.named "PMIN",
   TEntry.fixed false]

def OPTION3 : List TEntry :=
  [TEntry.fixed false, TEntry.fixed true, TEntry.fixed true,
   TEntry.named "DC", TEntry.named "AC", TEntry.named "AUTO",
   TEntry.named "VAHZ"]

def OPTION4 : List TEntry :=
  [TEntry.fixed false, TEntry.fixed true, TEntry.fixed true,
   TEntry.fixed false, TEntry.named "VBAR", TEntry.named "Hold",
   TEntry.named "LPF"]

/-- The twelve named bytes of one packet, in wire order
(`range, digit4..digit0, function, status, option1..option4`). -/
structure Packet where
  range : Nat
  digit4 : Nat
  digit3 : Nat
  digit2 : Nat
  digit1 : Nat
  digit0 : Nat
  function : Nat
  status : Nat
  option1 : Nat
  option2 : Nat
  option3 : Nat
  option4 : Nat
deriving DecidableEq, Repr

/-- The exceptions `parse` can raise, tagged by raise-site (the Python
implementation raises untyped `KeyError` / `ValueError` / `TypeError`):
`unknownFunction`/`unknownRange`/`unknownDigit` are the `KeyError`s of
the table lookups, `nullRangeTable` the `TypeError` from subscripting
the `None` range table of the temperature mode, `templateMismatch` the
`ValueError` of `get_bits`, `conflictingFlags` the `ValueError` for
AC and DC both set, and `labelRangeArith` the `TypeError` raised when
`10 ** m_range[1]` is evaluated with `m_range` a plain string. -/
inductive ParseError where
  | unknownFunction
  | nullRangeTable
  | unknownRange
  | templateMismatch
  | conflictingFlags
  | unknownDigit
  | labelRangeArith
deriving DecidableEq, Repr

/-- The result dictionary built at the end of `parse`; the `""`
sentinels written into `value`/`display_value` on a non-normal
operation are modelled as `none`. -/
structure Reading where
  value : Option ℚ
  unit : String
  display_value : Option String
  display_unit : String
  mode : String
  current : Option String
  peak : Option String
  relative : Bool
  hold : Bool
  operation : String
  battery_low : Bool
deriving DecidableEq, Repr

/-- `str(Decimal(n) / 10**p)` after quantizing to `p` fractional
digits: the division is exact, so this is plain fixed-point printing. -/
def formatDecimal (n : Int) (p : Nat) : String :=
  let a := n.natAbs
  let sign := if n < 0 then "-" else ""
  if p = 0 then sign ++ toString a
  else
    let ip := a / 10 ^ p
    let fp := a % 10 ^ p
    let fs := toString fp
    sign ++ toString ip ++ "." ++
      (String.mk (List.replicate (p - fs.length) '0') ++ fs)

/-- The flag-merging loop of `parse` (lines 233-238): decode the five
flag bytes against their templates and union the bindings (the flag
names of the five templates are pairwise distinct, so dict update is
concatenation). -/
def decodeFlags (st o1 o2 o3 o4 : Nat) : Option (List (String × Bool)) := do
  let a ← get_bits st STATUS
  let b ← get_bits o1 OPTION1
  let c ← get_bits o2 OPTION2
  let d ← get_bits o3 OPTION3
  let e ← get_bits o4 OPTION4
  pure (a ++ b ++ c ++ d ++ e)

/-- `options[name]`.  Total with default `false`: whenever the five
templates decoded successfully every name `parse` looks up is bound
(all 18 flag names are present), so the `KeyError` branch of the
Python dict lookup is unreachable and the default is never returned
on any input `parse` can feed it. -/
def getFlag (opts : List (String × Bool)) (n : String) : Bool :=
  (opts.lookup n).getD false

/-- `parse(packet)` (lines 222-341), reproduced step by step in source
order so that the error raised matches the first failing statement of
the Python code. -/
def parse (p : Packet) : Except ParseError Reading :=
  match FUNCTION p.function with
  | none => Except.error ParseError.unknownFunction
  | some (mode0, rtabO, unit0) =>
    match rtabO with
    | none => Except.error ParseError.nullRangeTable
    | some rtab =>
      match rtab p.range with
      | none => Except.error ParseError.unknownRange
      | some m_range0 =>
        match decodeFlags p.status p.option1 p.option2 p.option3 p.option4 with
        | none => Except.error ParseError.templateMismatch
        | some options =>
          if getFlag options "AC" && getFlag options "DC" then
            Except.error ParseError.conflictingFlags
          else
            let current : Option String :=
              if getFlag options "DC" then some "AC"
              else if getFlag options "AC" then some "DC"
              else none
            let operation : String :=
              if getFlag options "UL" then "underload"
              else if getFlag options "OL" then "overload"
              else "normal"
            -- lines 256-259: `mrange` is computed but commented out of
            -- the results dict, so it does not reach the output
            let _mrange : String :=
              if getFlag options "AUTO" then "auto" else "manual"
            let battery_low : Bool := getFlag options "BATT"
            let relative : Bool := getFlag options "REL"
            let hold : Bool := getFlag options "Hold"
            let peak : Option String :=
              if getFlag options "MAX" then some "max"
              else if getFlag options "MIN" then some "min"
              else none
            -- lines 284-291 are a pure no-op (`pass` in both branches)
            let muo :=
              if getFlag options "VAHZ" && !(getFlag options "Judge") then
                ("frequency", "Hz", RangeEntry.triple 1 1 "Hz")
              else if (getFlag options "VAHZ" || mode0 == "frequency")
                  && getFlag options "Judge" then
                ("duty_cycle", "%", RangeEntry.triple 1 1 "%")
              else (mode0, unit0, m_range0)
            let mode1 := muo.1
            let unit1 := muo.2.1
            let m_range1 := muo.2.2
            let m_range2 :=
              if mode1 == "temperature" && getFlag options "VBAR" then
                RangeEntry.triple 1 1 "deg"
              else if mode1 == "temperature" && !(getFlag options "VBAR") then
                RangeEntry.triple 1 2 "deg"
              else m_range1
            match DIGITS p.digit4, DIGITS p.digit3, DIGITS p.digit2,
                DIGITS p.digit1, DIGITS p.digit0 with
            | some d4, some d3, some d2, some d1, some d0 =>
              let magnitude : Int :=
                (d4 : Int) * 10 ^ 4 + (d3 : Int) * 10 ^ 3
                  + (d2 : Int) * 10 ^ 2 + (d1 : Int) * 10 ^ 1
                  + (d0 : Int) * 10 ^ 0
              let signed : Int :=
                if getFlag options "Sign" then -magnitude else magnitude
              match m_range2 with
              | RangeEntry.label _ => Except.error ParseError.labelRangeArith
              | RangeEntry.triple scale prec dunit =>
                let displayStr := formatDecimal signed prec
                let numValue : ℚ := (signed : ℚ) / 10 ^ prec * scale
                let suppressed : Bool := operation != "normal"
                Except.ok
                  { value := if suppressed then none else some numValue
                    unit := unit1
                    display_value :=
                      if suppressed then none else some displayStr
                    display_unit := dunit
                    mode := mode1
                    current := current
                    peak := peak
                    relative := relative
                    hold := hold
                    operation := operation
                    battery_low := battery_low }
            | _, _, _, _, _ => Except.error ParseError.unknownDigit

/-- The exception `output_readable` can raise: `str` has no `append`
method, so line 353 raises `AttributeError` whenever it is reached. -/
inductive ReadableError where
  | attributeError
deriving DecidableEq, Repr

/-- `output_readable(results)` (lines 343-354). -/
def output_readable (r : Reading) : Except ReadableError String :=
  let line :=
    if r.operation == "normal" then
      (match r.display_value with | some s => s | none => "") ++ " "
        ++ r.display_unit
    else
      "-, the measurement is " ++ r.operation ++ "ed!"
  if r.battery_low then Except.error ReadableError.attributeError
  else Except.ok line

/-! ## Characterization of the flag decoder -/

/-- The fixed-bit (framing) conditions of the five templates, in the
order `get_bits` tests them. -/
def fixedOk (st o1 o2 o3 o4 : Nat) : Bool :=
  (!test_bit st 6 && test_bit st 5 && test_bit st 4)
  && (!test_bit o1 6 && test_bit o1 5 && test_bit o1 4)
  && (!test_bit o2 0 && !test_bit o2 6 && test_bit o2 5 && test_bit o2 4)
  && (!test_bit o3 6 && test_bit o3 5 && test_bit o3 4)
  && (!test_bit o4 3 && !test_bit o4 6 && test_bit o4 5 && test_bit o4 4)

/-- The 18 flag bindings produced by a successful `decodeFlags`, as an
explicit function of the five bytes' bits. -/
def flagList (st o1 o2 o3 o4 : Nat) : List (String × Bool) :=
  [("OL", test_bit st 0), ("BATT", test_bit st 1),
   ("Sign", test_bit st 2), ("Judge", test_bit st 3),
   ("RMR", test_bit o1 0), ("REL", test_bit o1 1),
   ("MIN", test_bit o1 2), ("MAX", test_bit o1 3),
   ("PMIN", test_bit o2 1), ("PMAX", test_bit o2 2),
   ("UL", test_bit o2 3),
   ("VAHZ", test_bit o3 0), ("AUTO", test_bit o3 1),
   ("AC", test_bit o3 2), ("DC", test_bit o3 3),
   ("LPF", test_bit o4 0), ("Hold", test_bit o4 1),
   ("VBAR", test_bit o4 2)]

/-- The flag set of a packet whose five flag bytes pass their
templates. -/
def packetFlags (p : Packet) : List (String × Bool) :=
  flagList p.status p.option1 p.option2 p.option3 p.option4

/-- The five flag bytes of `p` pass their templates, and the decoded
flag set is `packetFlags p`. -/
def templatesPass (p : Packet) : Prop :=
  decodeFlags p.status p.option1 p.option2 p.option3 p.option4
    = some (packetFlags p)

/-- Two packets agree on the low 7 bits of every one of the 12 bytes. -/
def sameLow7 (p q : Packet) : Prop :=
  p.range % 128 = q.range % 128 ∧ p.digit4 % 128 = q.digit4 % 128 ∧
  p.digit3 % 128 = q.digit3 % 128 ∧ p.digit2 % 128 = q.digit2 % 128 ∧
  p.digit1 % 128 = q.digit1 % 128 ∧ p.digit0 % 128 = q.digit0 % 128 ∧
  p.function % 128 = q.function % 128 ∧ p.status % 128 = q.status % 128 ∧
  p.option1 % 128 = q.option1 % 128 ∧ p.option2 % 128 = q.option2 % 128 ∧
  p.option3 % 128 = q.option3 % 128 ∧ p.option4 % 128 = q.option4 % 128

/-- The 18 flag names bound by a successful decode of all five flag
bytes, in the order `decodeFlags` produces them. -/
def flagNames18 : List String :=
  ["OL", "BATT", "Sign", "Judge", "RMR", "REL", "MIN", "MAX",
   "PMIN", "PMAX", "UL", "VAHZ", "AUTO", "AC", "DC", "LPF", "Hold",
   "VBAR"]

/-- The display magnitude assembled from the five decoded numerals
(lines 310-312): `d4*10^4 + d3*10^3 + d2*10^2 + d1*10^1 + d0*10^0`. -/
def magInt (d4 d3 d2 d1 d0 : ℕ) : Int :=
  (d4 : Int) * 10 ^ 4 + (d3 : Int) * 10 ^ 3 + (d2 : Int) * 10 ^ 2
    + (d1 : Int) * 10 ^ 1 + (d0 : Int) * 10 ^ 0

/-! ### Concrete packets and readings used in the claim theorems -/

/-- Voltage packet: range code `0b0110000` (2.2000V), digits
`2,2,0,0,0`, all five flag bytes `0b0110000` (templates pass, every
flag clear). -/
def pktVolt22 : Packet :=
  ⟨0b0110000, 0b0110010, 0b0110010, 0b0110000, 0b0110000, 0b0110000,
   0b0111011, 0b0110000, 0b0110000, 0b0110000, 0b0110000, 0b0110000⟩

/-- `pktVolt22` with only the Sign flag (status bit 2) additionally
set. -/
def pktVolt22sign : Packet := { pktVolt22 with status := 0b0110100 }

def rVolt22 : Reading :=
  ⟨some (2.2 : ℚ), "V", some "2.2000", "V", "voltage", none, none,
   false, false, "normal", false⟩

def rVolt22sign : Reading :=
  ⟨some (-2.2 : ℚ), "V", some "-2.2000", "V", "voltage", none, none,
   false, false, "normal", false⟩

/-- Voltage packet on the `22.000V` range (code `0b0110001`,
precision 3) with digits `1,2,3,4,5`. -/
def pktVolt12345 : Packet :=
  ⟨0b0110001, 0b0110001, 0b0110010, 0b0110011, 0b0110100, 0b0110101,
   0b0111011, 0b0110000, 0b0110000, 0b0110000, 0b0110000, 0b0110000⟩

def rVolt12345 : Reading :=
  ⟨some (12.345 : ℚ), "V", some "12.345", "V", "voltage", none, none,
   false, false, "normal", false⟩

/-- Temperature packet: function code `0b0110100`. -/
def pktTemperature : Packet :=
  ⟨0b0110000, 0b0110000, 0b0110000, 0b0110000, 0b0110000, 0b0110000,
   0b0110100, 0b0110000, 0b0110000, 0b0110000, 0b0110000, 0b0110000⟩

/-- AC and DC flags both set (option3 = `0b0111100`) together with an
unknown function code `0`. -/
def pktConflictBadFunction : Packet :=
  ⟨0b0110000, 0b0110000, 0b0110000, 0b0110000, 0b0110000, 0b0110000,
   0, 0b0110000, 0b0110000, 0b0110000, 0b0111100, 0b0110000⟩

/-- AC and DC flags both set on an otherwise well-formed voltage
packet. -/
def pktConflictVolt : Packet :=
  ⟨0b0110000, 0b0110000, 0b0110000, 0b0110000, 0b0110000, 0b0110000,
   0b0111011, 0b0110000, 0b0110000, 0b0110000, 0b0111100, 0b0110000⟩

/-- Voltage packet with both UL (option2 bit 3) and OL (status bit 0)
set. -/
def pktULOL : Packet :=
  ⟨0b0110000, 0b0110010, 0b0110010, 0b0110000, 0b0110000, 0b0110000,
   0b0111011, 0b0110001, 0b0110000, 0b0111000, 0b0110000, 0b0110000⟩

def rULOL : Reading :=
  ⟨none, "V", none, "V", "voltage", none, none, false, false,
   "underload", false⟩

/-- Voltage packet with only the DC template flag (option3 bit 3)
set. -/
def pktDCflag : Packet :=
  ⟨0b0110000, 0b0110010, 0b0110010, 0b0110000, 0b0110000, 0b0110000,
   0b0111011, 0b0110000, 0b0110000, 0b0110000, 0b0111000, 0b0110000⟩

def rDCflag : Reading :=
  ⟨some (2.2 : ℚ), "V", some "2.2000", "V", "voltage", some "AC", none,
   false, false, "normal", false⟩

/-- Voltage packet with the VAHZ flag (option3 bit 0) set and Judge
clear. -/
def pktVahz : Packet :=
  ⟨0b0110000, 0b0110010, 0b0110010, 0b0110000, 0b0110000, 0b0110000,
   0b0111011, 0b0110000, 0b0110000, 0b0110000, 0b0110001, 0b0110000⟩

def rVahz : Reading :=
  ⟨some (2200 : ℚ), "Hz", some "2200.0", "Hz", "frequency", none, none,
   false, false, "normal", false⟩

/-- `pktVolt22` with bit 7 of the function byte set. -/
def pktVolt22funHi : Packet := { pktVolt22 with function := 0b10111011 }

/-- `pktVolt22` with bit 7 of the range byte set. -/
def pktVolt22rangeHi : Packet := { pktVolt22 with range := 0b10110000 }

/-- `pktVolt22` with bit 7 of the digit4 byte set. -/
def pktVolt22digitHi : Packet := { pktVolt22 with digit4 := 0b10110010 }

/-- `pktVolt22` with bit 7 of the status byte set. -/
def pktVolt22statusHi : Packet := { pktVolt22 with status := 0b10110000 }

/-- ADP packet: function code `0b0111110`, range code `0b0110000`
(entry `"ADP4"`). -/
def pktADP : Packet :=
  ⟨0b0110000, 0b0110000, 0b0110000, 0b0110000, 0b0110000, 0b0110000,
   0b0111110, 0b0110000, 0b0110000, 0b0110000, 0b0110000, 0b0110000⟩

/-- A normal overload reading (as produced for an OL packet). -/
def rReadOverload : Reading :=
  ⟨none, "V", none, "V", "voltage", none, none, false, false,
   "overload", false⟩

/-- A normal reading with the battery-low flag set. -/
def rReadBatt : Reading :=
  ⟨some (2.2 : ℚ), "V", some "2.2000", "V", "voltage", none, none,
   false, false, "normal", true⟩

lemma get_bits_STATUS (b : Nat) :
    get_bits b STATUS =
      if !test_bit b 6 && test_bit b 5 && test_bit b 4 then
        some [("OL", test_bit b 0), ("BATT", test_bit b 1),
              ("Sign", test_bit b 2), ("Judge", test_bit b 3)]
      else none := by
  cases h6 : test_bit b 6 <;> cases h5 : test_bit b 5 <;>
    cases h4 : test_bit b 4 <;>
    simp [get_bits, get_bits_go, STATUS, h6, h5, h4]

lemma get_bits_OPTION1 (b : Nat) :
    get_bits b OPTION1 =
      if !test_bit b 6 && test_bit b 5 && test_bit b 4 then
        some [("RMR", test_bit b 0), ("REL", test_bit b 1),
              ("MIN", test_bit b 2), ("MAX", test_bit b 3)]
      else none := by
  cases h6 : test_bit b 6 <;> cases h5 : test_bit b 5 <;>
    cases h4 : test_bit b 4 <;>
    simp [get_bits, get_bits_go, OPTION1, h6, h5, h4]

lemma get_bits_OPTION2 (b : Nat) :
    get_bits b OPTION2 =
      if !test_bit b 0 && !test_bit b 6 && test_bit b 5 && test_bit b 4 then
        some [("PMIN", test_bit b 1), ("PMAX", test_bit b 2),
              ("UL", test_bit b 3)]
      else none := by
  cases h0 : test_bit b 0 <;> cases h6 : test_bit b 6 <;>
    cases h5 : test_bit b 5 <;> cases h4 : test_bit b 4 <;>
    simp [get_bits, get_bits_go, OPTION2, h0, h6, h5, h4]

lemma get_bits_OPTION3 (b : Nat) :
    get_bits b OPTION3 =
      if !test_bit b 6 && test_bit b 5 && test_bit b 4 then
        some [("VAHZ", test_bit b 0), ("AUTO", test_bit b 1),
              ("AC", test_bit b 2), ("DC", test_bit b 3)]
      else none := by
  cases h6 : test_bit b 6 <;> cases h5 : test_bit b 5 <;>
    cases h4 : test_bit b 4 <;>
    simp [get_bits, get_bits_go, OPTION3, h6, h5, h4]

lemma get_bits_OPTION4 (b : Nat) :
    get_bits b OPTION4 =
      if !test_bit b 3 && !test_bit b 6 && test_bit b 5 && test_bit b 4 then
        some [("LPF", test_bit b 0), ("Hold", test_bit b 1),
              ("VBAR", test_bit b 2)]
      else none := by
  cases h3 : test_bit b 3 <;> cases h6 : test_bit b 6 <;>
    cases h5 : test_bit b 5 <;> cases h4 : test_bit b 4 <;>
    simp [get_bits, get_bits_go, OPTION4, h3, h6, h5, h4]

/-- `decodeFlags` succeeds exactly when the fixed bits of all five
bytes match, and then yields the 18 bindings of `flagList`. -/
lemma decodeFlags_eq (st o1 o2 o3 o4 : Nat) :
    decodeFlags st o1 o2 o3 o4 =
      if fixedOk st o1 o2 o3 o4 then some (flagList st o1 o2 o3 o4)
      else none := by
  unfold decodeFlags fixedOk flagList
  rw [get_bits_STATUS, get_bits_OPTION1, get_bits_OPTION2,
    get_bits_OPTION3, get_bits_OPTION4]
  cases hA : (!test_bit st 6 && test_bit st 5 && test_bit st 4) <;>
    cases hB : (!test_bit o1 6 && test_bit o1 5 && test_bit o1 4) <;>
    cases hC : (!test_bit o2 0 && !test_bit o2 6 && test_bit o2 5
      && test_bit o2 4) <;>
    cases hD : (!test_bit o3 6 && test_bit o3 5 && test_bit o3 4) <;>
    cases hE : (!test_bit o4 3 && !test_bit o4 6 && test_bit o4 5
      && test_bit o4 4) <;>
    simp [hA, hB, hC, hD, hE]

lemma templatesPass_iff (p : Packet) :
    templatesPass p ↔
      fixedOk p.status p.option1 p.option2 p.option3 p.option4 = true := by
  unfold templatesPass packetFlags
  rw [decodeFlags_eq]
  cases h : fixedOk p.status p.option1 p.option2 p.option3 p.option4 <;>
    simp [h]

/-! ## Helper lemmas -/

lemma RANGE_ADP_label (c : Nat) (re : RangeEntry)
    (h : RANGE_ADP c = some re) : ∃ s, re = RangeEntry.label s := by
  unfold RANGE_ADP at h
  split at h <;> first
    | exact ⟨_, (Option.some.inj h).symm⟩
    | exact absurd h (by simp)

lemma get_bits_go_low7 : ∀ (l : List Nat) (b b' : Nat) (t : List TEntry)
    (acc : List (String × Bool)),
    (∀ i ∈ l, test_bit b i = test_bit b' i) →
    get_bits_go b t l acc = get_bits_go b' t l acc
  | [], _, _, _, _, _ => rfl
  | i :: rest, b, b', t, acc, hb => by
    have hi : test_bit b i = test_bit b' i := hb i (List.mem_cons_self i rest)
    have hrest : ∀ j ∈ rest, test_bit b j = test_bit b' j :=
      fun j hj => hb j (List.mem_cons_of_mem _ hj)
    unfold get_bits_go
    cases h : t[6 - i]? with
    | none => rfl
    | some e =>
      cases e with
      | fixed bv =>
        rw [hi]
        by_cases hc : test_bit b' i = bv
        · simp only [hc, if_true]
          exact get_bits_go_low7 rest b b' t acc hrest
        · simp [hc]
      | named nm =>
        rw [hi]
        exact get_bits_go_low7 rest b b' t _ hrest

lemma testBit_mod128 (b i : Nat) (hlt : i < 7) :
    (b % 128).testBit i = b.testBit i := by
  rw [show (128 : ℕ) = 2 ^ 7 from rfl, Nat.testBit_mod_two_pow]
  simp [hlt]

lemma get_bits_low7 (b b' : Nat) (h : b % 128 = b' % 128)
    (t : List TEntry) : get_bits b t = get_bits b' t := by
  apply get_bits_go_low7
  intro i hi
  have hlt : i < 7 := by fin_cases hi <;> norm_num
  unfold test_bit
  rw [← testBit_mod128 b i hlt, ← testBit_mod128 b' i hlt, h]

lemma decodeFlags_low7 (st o1 o2 o3 o4 st' o1' o2' o3' o4' : Nat)
    (h1 : st % 128 = st' % 128) (h2 : o1 % 128 = o1' % 128)
    (h3 : o2 % 128 = o2' % 128) (h4 : o3 % 128 = o3' % 128)
    (h5 : o4 % 128 = o4' % 128) :
    decodeFlags st o1 o2 o3 o4 = decodeFlags st' o1' o2' o3' o4' := by
  unfold decodeFlags
  rw [get_bits_low7 _ _ h1, get_bits_low7 _ _ h2, get_bits_low7 _ _ h3,
    get_bits_low7 _ _ h4, get_bits_low7 _ _ h5]

/-- Full evaluation of `parse` on a voltage packet (function code
`0b0111011`) whose templates pass, with VAHZ clear and AC, DC not both
set; every other flag is left free. -/
lemma parse_voltage_eq (p : Packet) (sc : ℚ) (pr : ℕ) (u : String)
    (d4 d3 d2 d1 d0 : ℕ)
    (hf : p.function = 0b0111011)
    (hr : RANGE_VOLTAGE p.range = some (RangeEntry.triple sc pr u))
    (hTP : templatesPass p)
    (hVAHZ : getFlag (packetFlags p) "VAHZ" = false)
    (hACDC : (getFlag (packetFlags p) "AC" && getFlag (packetFlags p) "DC")
      = false)
    (h4 : DIGITS p.digit4 = some d4) (h3 : DIGITS p.digit3 = some d3)
    (h2 : DIGITS p.digit2 = some d2) (h1 : DIGITS p.digit1 = some d1)
    (h0 : DIGITS p.digit0 = some d0) :
    parse p = Except.ok
      { value :=
          if (if getFlag (packetFlags p) "UL" then "underload"
              else if getFlag (packetFlags p) "OL" then "overload"
              else "normal") != "normal" then none
          else some (((if getFlag (packetFlags p) "Sign" then
              -magInt d4 d3 d2 d1 d0 else magInt d4 d3 d2 d1 d0 : Int) : ℚ)
            / 10 ^ pr * sc)
        unit := "V"
        display_value :=
          if (if getFlag (packetFlags p) "UL" then "underload"
              else if getFlag (packetFlags p) "OL" then "overload"
              else "normal") != "normal" then none
          else some (formatDecimal (if getFlag (packetFlags p) "Sign" then
              -magInt d4 d3 d2 d1 d0 else magInt d4 d3 d2 d1 d0) pr)
        display_unit := u
        mode := "voltage"
        current := if getFlag (packetFlags p) "DC" then some "AC"
          else if getFlag (packetFlags p) "AC" then some "DC" else none
        peak := if getFlag (packetFlags p) "MAX" then some "max"
          else if getFlag (packetFlags p) "MIN" then some "min" else none
        relative := getFlag (packetFlags p) "REL"
        hold := getFlag (packetFlags p) "Hold"
        operation := if getFlag (packetFlags p) "UL" then "underload"
          else if getFlag (packetFlags p) "OL" then "overload" else "normal"
        battery_low := getFlag (packetFlags p) "BATT" } := by
  have hF : FUNCTION p.function = some ("voltage", some RANGE_VOLTAGE, "V") := by
    rw [hf]; rfl
  have hTP' : decodeFlags p.status p.option1 p.option2 p.option3 p.option4
      = some (packetFlags p) := hTP
  simp only [parse, hF, hr, hTP', h4, h3, h2, h1, h0, hVAHZ, hACDC,
    Bool.false_and]
  simp [magInt]

lemma parse_pktVolt22 : parse pktVolt22 = Except.ok rVolt22 := by
  have h := parse_voltage_eq pktVolt22 1 4 "V" 2 2 0 0 0 rfl rfl rfl rfl rfl
    rfl rfl rfl rfl rfl
  rw [h]
  simp only [show getFlag (packetFlags pktVolt22) "UL" = false from rfl,
    show getFlag (packetFlags pktVolt22) "OL" = false from rfl,
    show getFlag (packetFlags pktVolt22) "Sign" = false from rfl,
    show getFlag (packetFlags pktVolt22) "DC" = false from rfl,
    show getFlag (packetFlags pktVolt22) "AC" = false from rfl,
    show getFlag (packetFlags pktVolt22) "MAX" = false from rfl,
    show getFlag (packetFlags pktVolt22) "MIN" = false from rfl,
    show getFlag (packetFlags pktVolt22) "REL" = false from rfl,
    show getFlag (packetFlags pktVolt22) "Hold" = false from rfl,
    show getFlag (packetFlags pktVolt22) "BATT" = false from rfl]
  norm_num [rVolt22, Reading.mk.injEq, magInt,
    show formatDecimal 22000 4 = "2.2000" from rfl]

lemma parse_pktVolt22sign : parse pktVolt22sign = Except.ok rVolt22sign := by
  have h := parse_voltage_eq pktVolt22sign 1 4 "V" 2 2 0 0 0 rfl rfl rfl rfl
    rfl rfl rfl rfl rfl rfl
  rw [h]
  simp only [show getFlag (packetFlags pktVolt22sign) "UL" = false from rfl,
    show getFlag (packetFlags pktVolt22sign) "OL" = false from rfl,
    show getFlag (packetFlags pktVolt22sign) "Sign" = true from rfl,
    show getFlag (packetFlags pktVolt22sign) "DC" = false from rfl,
    show getFlag (packetFlags pktVolt22sign) "AC" = false from rfl,
    show getFlag (packetFlags pktVolt22sign) "MAX" = false from rfl,
    show getFlag (packetFlags pktVolt22sign) "MIN" = false from rfl,
    show getFlag (packetFlags pktVolt22sign) "REL" = false from rfl,
    show getFlag (packetFlags pktVolt22sign) "Hold" = false from rfl,
    show getFlag (packetFlags pktVolt22sign) "BATT" = false from rfl]
  norm_num [rVolt22sign, Reading.mk.injEq, magInt,
    show formatDecimal (-22000) 4 = "-2.2000" from rfl]

lemma parse_pktVolt12345 : parse pktVolt12345 = Except.ok rVolt12345 := by
  have h := parse_voltage_eq pktVolt12345 1 3 "V" 1 2 3 4 5 rfl rfl rfl rfl
    rfl rfl rfl rfl rfl rfl
  rw [h]
  simp only [show getFlag (packetFlags pktVolt12345) "UL" = false from rfl,
    show getFlag (packetFlags pktVolt12345) "OL" = false from rfl,
    show getFlag (packetFlags pktVolt12345) "Sign" = false from rfl,
    show getFlag (packetFlags pktVolt12345) "DC" = false from rfl,
    show getFlag (packetFlags pktVolt12345) "AC" = false from rfl,
    show getFlag (packetFlags pktVolt12345) "MAX" = false from rfl,
    show getFlag (packetFlags pktVolt12345) "MIN" = false from rfl,
    show getFlag (packetFlags pktVolt12345) "REL" = false from rfl,
    show getFlag (packetFlags pktVolt12345) "Hold" = false from rfl,
    show getFlag (packetFlags pktVolt12345) "BATT" = false from rfl]
  norm_num [rVolt12345, Reading.mk.injEq, magInt,
    show formatDecimal 12345 3 = "12.345" from rfl]

lemma parse_pktULOL : parse pktULOL = Except.ok rULOL := by
  have h := parse_voltage_eq pktULOL 1 4 "V" 2 2 0 0 0 rfl rfl rfl rfl rfl
    rfl rfl rfl rfl rfl
  rw [h]
  simp only [show getFlag (packetFlags pktULOL) "UL" = true from rfl,
    show getFlag (packetFlags pktULOL) "OL" = true from rfl,
    show getFlag (packetFlags pktULOL) "Sign" = false from rfl,
    show getFlag (packetFlags pktULOL) "DC" = false from rfl,
    show getFlag (packetFlags pktULOL) "AC" = false from rfl,
    show getFlag (packetFlags pktULOL) "MAX" = false from rfl,
    show getFlag (packetFlags pktULOL) "MIN" = false from rfl,
    show getFlag (packetFlags pktULOL) "REL" = false from rfl,
    show getFlag (packetFlags pktULOL) "Hold" = false from rfl,
    show getFlag (packetFlags pktULOL) "BATT" = false from rfl]
  norm_num [rULOL, Reading.mk.injEq]
  exact ⟨fun hh => absurd hh (by decide), fun hh => absurd hh (by decide)⟩

lemma parse_pktDCflag : parse pktDCflag = Except.ok rDCflag := by
  have h := parse_voltage_eq pktDCflag 1 4 "V" 2 2 0 0 0 rfl rfl rfl rfl rfl
    rfl rfl rfl rfl rfl
  rw [h]
  simp only [show getFlag (packetFlags pktDCflag) "UL" = false from rfl,
    show getFlag (packetFlags pktDCflag) "OL" = false from rfl,
    show getFlag (packetFlags pktDCflag) "Sign" = false from rfl,
    show getFlag (packetFlags pktDCflag) "DC" = true from rfl,
    show getFlag (packetFlags pktDCflag) "AC" = false from rfl,
    show getFlag (packetFlags pktDCflag) "MAX" = false from rfl,
    show getFlag (packetFlags pktDCflag) "MIN" = false from rfl,
    show getFlag (packetFlags pktDCflag) "REL" = false from rfl,
    show getFlag (packetFlags pktDCflag) "Hold" = false from rfl,
    show getFlag (packetFlags pktDCflag) "BATT" = false from rfl]
  norm_num [rDCflag, Reading.mk.injEq, magInt,
    show formatDecimal 22000 4 = "2.2000" from rfl]

lemma parse_pktVahz : parse pktVahz = Except.ok rVahz := by
  have hF : FUNCTION pktVahz.function
      = some ("voltage", some RANGE_VOLTAGE, "V") := rfl
  have hTP' : decodeFlags pktVahz.status pktVahz.option1 pktVahz.option2
      pktVahz.option3 pktVahz.option4 = some (packetFlags pktVahz) := rfl
  simp only [parse, hF,
    show RANGE_VOLTAGE pktVahz.range
      = some (RangeEntry.triple 1 4 "V") from rfl, hTP',
    show DIGITS pktVahz.digit4 = some 2 from rfl,
    show DIGITS pktVahz.digit3 = some 2 from rfl,
    show DIGITS pktVahz.digit2 = some 0 from rfl,
    show DIGITS pktVahz.digit1 = some 0 from rfl,
    show DIGITS pktVahz.digit0 = some 0 from rfl,
    show getFlag (packetFlags pktVahz) "AC" = false from rfl,
    show getFlag (packetFlags pktVahz) "DC" = false from rfl,
    show getFlag (packetFlags pktVahz) "UL" = false from rfl,
    show getFlag (packetFlags pktVahz) "OL" = false from rfl,
    show getFlag (packetFlags pktVahz) "VAHZ" = true from rfl,
    show getFlag (packetFlags pktVahz) "Judge" = false from rfl,
    show getFlag (packetFlags pktVahz) "Sign" = false from rfl,
    show getFlag (packetFlags pktVahz) "MAX" = false from rfl,
    show getFlag (packetFlags pktVahz) "MIN" = false from rfl,
    show getFlag (packetFlags pktVahz) "REL" = false from rfl,
    show getFlag (packetFlags pktVahz) "Hold" = false from rfl,
    show getFlag (packetFlags pktVahz) "BATT" = false from rfl]
  norm_num [rVahz, Reading.mk.injEq,
    show ¬(("voltage" : String) = "frequency") from by decide,
    show ¬(("frequency" : String) = "temperature") from by decide,
    show formatDecimal 22000 1 = "2200.0" from rfl]

/-! ## Claim theorems -/

/-- Claim C1: a voltage packet (function byte `0b0111011`) with range
byte `0b0110000` (scale 1, precision 4, unit V), digit bytes encoding
`2,2,0,0,0` and all of Sign, VAHZ, Judge, UL, OL, AC, DC clear decodes
to display value `"2.2000"`, value `2.2` and unit `"V"`; with only Sign
additionally set it decodes to `"-2.2000"` and `-2.2`.  In general the
magnitude is `d4*10^4 + d3*10^3 + d2*10^2 + d1*10^1 + d0*10^0`, negated
when Sign is set, and divided exactly by `10^precision` (then scaled by
the range's scale for the numeric value). -/
theorem C1_voltage_value_assembly :
    parse pktVolt22 = Except.ok rVolt22 ∧
    parse pktVolt22sign = Except.ok rVolt22sign ∧
    ∀ (p : Packet) (sc : ℚ) (pr : ℕ) (u : String) (d4 d3 d2 d1 d0 : ℕ),
      p.function = 0b0111011 →
      RANGE_VOLTAGE p.range = some (RangeEntry.triple sc pr u) →
      templatesPass p →
      getFlag (packetFlags p) "UL" = false →
      getFlag (packetFlags p) "OL" = false →
      getFlag (packetFlags p) "AC" = false →
      getFlag (packetFlags p) "DC" = false →
      getFlag (packetFlags p) "VAHZ" = false →
      getFlag (packetFlags p) "Judge" = false →
      DIGITS p.digit4 = some d4 → DIGITS p.digit3 = some d3 →
      DIGITS p.digit2 = some d2 → DIGITS p.digit1 = some d1 →
      DIGITS p.digit0 = some d0 →
      ∃ r, parse p = Except.ok r ∧
        r.unit = "V" ∧
        r.display_value = some (formatDecimal
          (if getFlag (packetFlags p) "Sign" then -magInt d4 d3 d2 d1 d0
           else magInt d4 d3 d2 d1 d0) pr) ∧
        r.value = some
          (((if getFlag (packetFlags p) "Sign" then -magInt d4 d3 d2 d1 d0
             else magInt d4 d3 d2 d1 d0 : Int) : ℚ) / 10 ^ pr * sc) := by
  refine ⟨parse_pktVolt22, parse_pktVolt22sign, ?_⟩
  intro p sc pr u d4 d3 d2 d1 d0 hf hr hTP hUL hOL hAC hDC hVAHZ hJudge
    h4 h3 h2 h1 h0
  have hACDC : (getFlag (packetFlags p) "AC" && getFlag (packetFlags p) "DC")
      = false := by rw [hAC]; exact Bool.false_and _
  have h := parse_voltage_eq p sc pr u d4 d3 d2 d1 d0 hf hr hTP hVAHZ hACDC
    h4 h3 h2 h1 h0
  refine ⟨_, h, rfl, ?_, ?_⟩ <;> simp [hUL, hOL]

/-- Witness for C1, instantiated at the `22.000V`-range packet with
digits `1,2,3,4,5`. -/
theorem C1_voltage_value_assembly_witness :
    ∃ r, parse pktVolt12345 = Except.ok r ∧
      r.unit = "V" ∧
      r.display_value = some (formatDecimal
        (if getFlag (packetFlags pktVolt12345) "Sign" then -magInt 1 2 3 4 5
         else magInt 1 2 3 4 5) 3) ∧
      r.value = some
        (((if getFlag (packetFlags pktVolt12345) "Sign" then -magInt 1 2 3 4 5
           else magInt 1 2 3 4 5 : Int) : ℚ) / 10 ^ 3 * 1) :=
  C1_voltage_value_assembly.2.2 pktVolt12345 1 3 "V" 1 2 3 4 5 rfl rfl rfl
    rfl rfl rfl rfl rfl rfl rfl rfl rfl rfl rfl

/-- Claim C2: every packet whose function byte is the temperature code
`0b0110100` hits the `None` range table: the code does NOT skip the
range lookup, it subscripts `None` (a `TypeError`), so no temperature
packet ever decodes to a Reading — the claimed skip-and-return
behaviour does not happen. -/
theorem C2_temperature_null_range (p : Packet)
    (hf : p.function = 0b0110100) :
    FUNCTION p.function = some ("temperature", none, "deg") ∧
    parse p = Except.error ParseError.nullRangeTable := by
  have hF : FUNCTION p.function = some ("temperature", none, "deg") := by
    rw [hf]; rfl
  exact ⟨hF, by simp only [parse, hF]⟩

/-- Witness for C2 at a concrete temperature packet. -/
theorem C2_temperature_null_range_witness :
    FUNCTION pktTemperature.function = some ("temperature", none, "deg") ∧
    parse pktTemperature = Except.error ParseError.nullRangeTable :=
  C2_temperature_null_range pktTemperature rfl

/-- Claim C3 counterexample: a packet with both AC and DC set (its flag
bytes pass their templates) but an unknown function byte fails with
`unknownFunction`, not `conflictingFlags` — so the claim's "regardless
of the values of the other fields" is false. -/
theorem C3_counterexample :
    getFlag (packetFlags pktConflictBadFunction) "AC" = true ∧
    getFlag (packetFlags pktConflictBadFunction) "DC" = true ∧
    templatesPass pktConflictBadFunction ∧
    parse pktConflictBadFunction = Except.error ParseError.unknownFunction ∧
    ParseError.unknownFunction ≠ ParseError.conflictingFlags :=
  ⟨rfl, rfl, rfl, rfl, by decide⟩

/-- Claim C3 (amended): when the function byte resolves to a mode with
a non-null range table, the range byte resolves in that table and the
five flag bytes pass their templates, a packet with both AC and DC set
fails with `conflictingFlags` regardless of the digit bytes. -/
theorem C3_conflicting_flags_amended (p : Packet) (mode0 unit0 : String)
    (rtab : RangeTable) (re : RangeEntry)
    (hF : FUNCTION p.function = some (mode0, some rtab, unit0))
    (hR : rtab p.range = some re)
    (hTP : templatesPass p)
    (hAC : getFlag (packetFlags p) "AC" = true)
    (hDC : getFlag (packetFlags p) "DC" = true) :
    parse p = Except.error ParseError.conflictingFlags := by
  have hTP' : decodeFlags p.status p.option1 p.option2 p.option3 p.option4
      = some (packetFlags p) := hTP
  simp only [parse, hF, hR, hTP', hAC, hDC, Bool.and_self]
  simp

/-- Witness for the amended C3 at a well-formed voltage packet with
AC and DC both set. -/
theorem C3_conflicting_flags_amended_witness :
    parse pktConflictVolt = Except.error ParseError.conflictingFlags :=
  C3_conflicting_flags_amended pktConflictVolt "voltage" "V" RANGE_VOLTAGE
    (RangeEntry.triple 1 4 "V") rfl rfl rfl rfl rfl

/-- Claim C4: a packet with both UL and OL set decodes without error
(shown concretely by `pktULOL`), and every successfully decoded packet
with UL and OL both set yields `operation = "underload"` (UL wins) with
`value` and `display_value` absent. -/
theorem C4_ul_ol_tolerated :
    parse pktULOL = Except.ok rULOL ∧
    rULOL.operation = "underload" ∧ rULOL.value = none ∧
    rULOL.display_value = none ∧
    ∀ (p : Packet) (r : Reading),
      parse p = Except.ok r →
      getFlag (packetFlags p) "UL" = true →
      getFlag (packetFlags p) "OL" = true →
      r.operation = "underload" ∧ r.value = none ∧ r.display_value = none := by
  refine ⟨parse_pktULOL, rfl, rfl, rfl, ?_⟩
  intro p r h hUL hOL
  unfold parse at h
  split at h
  · exact absurd h (by simp)
  case _ mode0 rtabO unit0 heqF =>
  split at h
  · exact absurd h (by simp)
  case _ rtab heqT =>
  split at h
  · exact absurd h (by simp)
  case _ m0 heqR =>
  split at h
  · exact absurd h (by simp)
  case _ options heqO =>
  rw [decodeFlags_eq] at heqO
  split at heqO
  swap
  · exact absurd heqO (by simp)
  replace heqO : options = packetFlags p := by
    have hx := Option.some.inj heqO
    rw [← hx]; rfl
  subst heqO
  split at h
  · exact absurd h (by simp)
  case _ hACDC =>
  simp only [hUL, hOL] at h
  split at h
  swap
  · exact absurd h (by simp)
  case _ d4 d3 d2 d1 d0 h4 h3 h2 h1 h0 =>
  split at h
  · exact absurd h (by simp)
  case _ scale prec dunit heqM =>
  simp at h
  subst h
  exact ⟨rfl, rfl, rfl⟩

/-- Witness for C4's general part at the concrete UL+OL packet. -/
theorem C4_ul_ol_tolerated_witness :
    rULOL.operation = "underload" ∧ rULOL.value = none ∧
    rULOL.display_value = none :=
  C4_ul_ol_tolerated.2.2.2.2 pktULOL rULOL parse_pktULOL rfl rfl

/-- Claim C5: for every successfully decoded packet, the `current`
field is `"AC"` exactly when the DC template flag is set (AC clear),
`"DC"` exactly when the AC template flag is set (DC clear), and absent
when neither is set — the deliberately swapped polarity. -/
theorem C5_current_polarity_swap (p : Packet) (r : Reading)
    (h : parse p = Except.ok r) :
    (r.current = some "AC" ↔
      getFlag (packetFlags p) "DC" = true
        ∧ getFlag (packetFlags p) "AC" = false) ∧
    (r.current = some "DC" ↔
      getFlag (packetFlags p) "AC" = true
        ∧ getFlag (packetFlags p) "DC" = false) ∧
    (r.current = none ↔
      getFlag (packetFlags p) "AC" = false
        ∧ getFlag (packetFlags p) "DC" = false) := by
  unfold parse at h
  split at h
  · exact absurd h (by simp)
  case _ mode0 rtabO unit0 heqF =>
  split at h
  · exact absurd h (by simp)
  case _ rtab heqT =>
  split at h
  · exact absurd h (by simp)
  case _ m0 heqR =>
  split at h
  · exact absurd h (by simp)
  case _ options heqO =>
  rw [decodeFlags_eq] at heqO
  split at heqO
  swap
  · exact absurd heqO (by simp)
  replace heqO : options = packetFlags p := by
    have hx := Option.some.inj heqO
    rw [← hx]; rfl
  subst heqO
  split at h
  · exact absurd h (by simp)
  case _ hACDC =>
  simp only [] at h
  split at h
  swap
  · exact absurd h (by simp)
  case _ d4 d3 d2 d1 d0 h4 h3 h2 h1 h0 =>
  split at h
  · exact absurd h (by simp)
  case _ scale prec dunit heqM =>
  simp at h
  subst h
  cases hac : getFlag (packetFlags p) "AC" <;>
    cases hdc : getFlag (packetFlags p) "DC" <;>
    simp_all

/-- Witness for C5 at the concrete packet with only the DC template
flag set. -/
theorem C5_current_polarity_swap_witness :
    (rDCflag.current = some "AC" ↔
      getFlag (packetFlags pktDCflag) "DC" = true
        ∧ getFlag (packetFlags pktDCflag) "AC" = false) ∧
    (rDCflag.current = some "DC" ↔
      getFlag (packetFlags pktDCflag) "AC" = true
        ∧ getFlag (packetFlags pktDCflag) "DC" = false) ∧
    (rDCflag.current = none ↔
      getFlag (packetFlags pktDCflag) "AC" = false
        ∧ getFlag (packetFlags pktDCflag) "DC" = false) :=
  C5_current_polarity_swap pktDCflag rDCflag parse_pktDCflag

/-- Claim C6: every successfully decoded packet with VAHZ set and
Judge clear is forced into frequency mode: `mode = "frequency"`,
`unit = "Hz"`, display unit `"Hz"`, and the value is assembled with
scale 1 and precision 1. -/
theorem C6_vahz_frequency_override (p : Packet) (r : Reading)
    (h : parse p = Except.ok r)
    (hV : getFlag (packetFlags p) "VAHZ" = true)
    (hJ : getFlag (packetFlags p) "Judge" = false) :
    r.mode = "frequency" ∧ r.unit = "Hz" ∧ r.display_unit = "Hz" ∧
    ∃ n : Int,
      r.display_value = (if r.operation = "normal"
        then some (formatDecimal n 1) else none) ∧
      r.value = (if r.operation = "normal"
        then some ((n : ℚ) / 10 ^ 1 * 1) else none) := by
  unfold parse at h
  split at h
  · exact absurd h (by simp)
  case _ mode0 rtabO unit0 heqF =>
  split at h
  · exact absurd h (by simp)
  case _ rtab heqT =>
  split at h
  · exact absurd h (by simp)
  case _ m0 heqR =>
  split at h
  · exact absurd h (by simp)
  case _ options heqO =>
  rw [decodeFlags_eq] at heqO
  split at heqO
  swap
  · exact absurd heqO (by simp)
  replace heqO : options = packetFlags p := by
    have hx := Option.some.inj heqO
    rw [← hx]; rfl
  subst heqO
  split at h
  · exact absurd h (by simp)
  case _ hACDC =>
  simp only [hV, hJ, Bool.not_false, Bool.true_and] at h
  split at h
  swap
  · exact absurd h (by simp)
  case _ d4 d3 d2 d1 d0 h4 h3 h2 h1 h0 =>
  split at h
  · exact absurd h (by simp)
  case _ scale prec dunit heqM =>
  simp [show ¬(("frequency" : String) = "temperature") from by decide]
    at heqM
  obtain ⟨hsc, hpr, hdu⟩ := heqM
  subst hsc; subst hpr; subst hdu
  simp at h
  subst h
  refine ⟨rfl, rfl, rfl,
    ⟨(if getFlag (packetFlags p) "Sign" = true then
        -((d4 : Int) * 10 ^ 4 + (d3 : Int) * 10 ^ 3 + (d2 : Int) * 10 ^ 2
          + (d1 : Int) * 10 ^ 1 + (d0 : Int) * 10 ^ 0)
      else
        ((d4 : Int) * 10 ^ 4 + (d3 : Int) * 10 ^ 3 + (d2 : Int) * 10 ^ 2
          + (d1 : Int) * 10 ^ 1 + (d0 : Int) * 10 ^ 0)), ?_, ?_⟩⟩ <;>
    cases hul : getFlag (packetFlags p) "UL" <;>
    cases hol : getFlag (packetFlags p) "OL" <;>
    cases hs : getFlag (packetFlags p) "Sign" <;>
    simp [hul, hol, hs]

/-- Witness for C6 at the concrete VAHZ packet. -/
theorem C6_vahz_frequency_override_witness :
    rVahz.mode = "frequency" ∧ rVahz.unit = "Hz" ∧
    rVahz.display_unit = "Hz" ∧
    ∃ n : Int,
      rVahz.display_value = (if rVahz.operation = "normal"
        then some (formatDecimal n 1) else none) ∧
      rVahz.value = (if rVahz.operation = "normal"
        then some ((n : ℚ) / 10 ^ 1 * 1) else none) :=
  C6_vahz_frequency_override pktVahz rVahz parse_pktVahz rfl rfl

/-- Claim C7 counterexample: three pairs of packets agreeing on the low
7 bits of every byte but decoding differently — bit 7 of the function,
range and digit bytes is NOT ignored (those bytes are used whole as
table keys), so decode does not behave identically on low-7-bit-equal
packets. -/
theorem C7_counterexample :
    (sameLow7 pktVolt22funHi pktVolt22
      ∧ parse pktVolt22funHi ≠ parse pktVolt22) ∧
    (sameLow7 pktVolt22rangeHi pktVolt22
      ∧ parse pktVolt22rangeHi ≠ parse pktVolt22) ∧
    (sameLow7 pktVolt22digitHi pktVolt22
      ∧ parse pktVolt22digitHi ≠ parse pktVolt22) := by
  refine ⟨⟨?_, ?_⟩, ⟨?_, ?_⟩, ⟨?_, ?_⟩⟩
  · exact ⟨rfl, rfl, rfl, rfl, rfl, rfl, rfl, rfl, rfl, rfl, rfl, rfl⟩
  · intro hEq
    rw [parse_pktVolt22, show parse pktVolt22funHi
      = Except.error ParseError.unknownFunction from rfl] at hEq
    exact Except.noConfusion hEq
  · exact ⟨rfl, rfl, rfl, rfl, rfl, rfl, rfl, rfl, rfl, rfl, rfl, rfl⟩
  · intro hEq
    rw [parse_pktVolt22, show parse pktVolt22rangeHi
      = Except.error ParseError.unknownRange from rfl] at hEq
    exact Except.noConfusion hEq
  · exact ⟨rfl, rfl, rfl, rfl, rfl, rfl, rfl, rfl, rfl, rfl, rfl, rfl⟩
  · intro hEq
    rw [parse_pktVolt22, show parse pktVolt22digitHi
      = Except.error ParseError.unknownDigit from rfl] at hEq
    exact Except.noConfusion hEq

/-- Claim C7 (amended): bit 7 is ignored only for the five flag bytes:
two packets that agree exactly on the range, digit and function bytes
and on the low 7 bits of each flag byte decode identically. -/
theorem C7_flag_low7_amended (p q : Packet)
    (h1 : p.range = q.range) (h2 : p.digit4 = q.digit4)
    (h3 : p.digit3 = q.digit3) (h4 : p.digit2 = q.digit2)
    (h5 : p.digit1 = q.digit1) (h6 : p.digit0 = q.digit0)
    (h7 : p.function = q.function)
    (h8 : p.status % 128 = q.status % 128)
    (h9 : p.option1 % 128 = q.option1 % 128)
    (h10 : p.option2 % 128 = q.option2 % 128)
    (h11 : p.option3 % 128 = q.option3 % 128)
    (h12 : p.option4 % 128 = q.option4 % 128) :
    parse p = parse q := by
  have hd : decodeFlags p.status p.option1 p.option2 p.option3 p.option4
      = decodeFlags q.status q.option1 q.option2 q.option3 q.option4 :=
    decodeFlags_low7 _ _ _ _ _ _ _ _ _ _ h8 h9 h10 h11 h12
  unfold parse
  rw [h1, h2, h3, h4, h5, h6, h7, hd]

/-- Witness for the amended C7: setting bit 7 of the status byte does
not change the decode result. -/
theorem C7_flag_low7_amended_witness :
    parse pktVolt22statusHi = parse pktVolt22 :=
  C7_flag_low7_amended pktVolt22statusHi pktVolt22 rfl rfl rfl rfl rfl rfl
    rfl rfl rfl rfl rfl rfl

/-- Claim C8: the human-readable renderer produces
`"<displayValue> <displayUnit>"` for a normal reading and
`"-, the measurement is <operation>ed!"` otherwise; but when
`battery_low` is true it calls the nonexistent `str.append` and raises
`AttributeError` instead of returning a line with the battery notice
appended. -/
theorem C8_readable_rendering :
    output_readable rVolt22 = Except.ok "2.2000 V" ∧
    output_readable rReadOverload
      = Except.ok "-, the measurement is overloaded!" ∧
    output_readable rReadBatt = Except.error ReadableError.attributeError :=
  ⟨rfl, rfl, rfl⟩

/-- Claim C9: for every byte accepted by each of the five templates,
the decoded mapping binds exactly that template's named positions; the
merged flag set of a packet binds all 18 pairwise-distinct flag names,
so every flag lookup `parse` performs afterwards is defined. -/
theorem C9_flag_names_complete (st o1 o2 o3 o4 : Nat)
    (a b c d e : List (String × Bool))
    (ha : get_bits st STATUS = some a)
    (hb : get_bits o1 OPTION1 = some b)
    (hc : get_bits o2 OPTION2 = some c)
    (hd : get_bits o3 OPTION3 = some d)
    (he : get_bits o4 OPTION4 = some e) :
    a.map Prod.fst = ["OL", "BATT", "Sign", "Judge"] ∧
    b.map Prod.fst = ["RMR", "REL", "MIN", "MAX"] ∧
    c.map Prod.fst = ["PMIN", "PMAX", "UL"] ∧
    d.map Prod.fst = ["VAHZ", "AUTO", "AC", "DC"] ∧
    e.map Prod.fst = ["LPF", "Hold", "VBAR"] ∧
    (a ++ b ++ c ++ d ++ e).map Prod.fst = flagNames18 ∧
    flagNames18.Nodup ∧
    ∀ n ∈ flagNames18, ((a ++ b ++ c ++ d ++ e).lookup n).isSome = true := by
  rw [get_bits_STATUS] at ha
  rw [get_bits_OPTION1] at hb
  rw [get_bits_OPTION2] at hc
  rw [get_bits_OPTION3] at hd
  rw [get_bits_OPTION4] at he
  split at ha
  swap
  · exact absurd ha (by simp)
  split at hb
  swap
  · exact absurd hb (by simp)
  split at hc
  swap
  · exact absurd hc (by simp)
  split at hd
  swap
  · exact absurd hd (by simp)
  split at he
  swap
  · exact absurd he (by simp)
  obtain rfl := Option.some.inj ha
  obtain rfl := Option.some.inj hb
  obtain rfl := Option.some.inj hc
  obtain rfl := Option.some.inj hd
  obtain rfl := Option.some.inj he
  refine ⟨rfl, rfl, rfl, rfl, rfl, rfl, by decide, ?_⟩
  intro n hn
  simp only [flagNames18] at hn
  fin_cases hn <;> rfl

/-- Witness for C9 at the all-clear flag bytes `0b0110000`. -/
theorem C9_flag_names_complete_witness :
    ([(("OL" : String), false), ("BATT", false), ("Sign", false),
        ("Judge", false)].map Prod.fst
      = ["OL", "BATT", "Sign", "Judge"]) ∧
    ([(("RMR" : String), false), ("REL", false), ("MIN", false),
        ("MAX", false)].map Prod.fst
      = ["RMR", "REL", "MIN", "MAX"]) ∧
    ([(("PMIN" : String), false), ("PMAX", false), ("UL", false)].map
        Prod.fst
      = ["PMIN", "PMAX", "UL"]) ∧
    ([(("VAHZ" : String), false), ("AUTO", false), ("AC", false),
        ("DC", false)].map Prod.fst
      = ["VAHZ", "AUTO", "AC", "DC"]) ∧
    ([(("LPF" : String), false), ("Hold", false), ("VBAR", false)].map
        Prod.fst
      = ["LPF", "Hold", "VBAR"]) ∧
    (([(("OL" : String), false), ("BATT", false), ("Sign", false),
        ("Judge", false)]
      ++ [("RMR", false), ("REL", false), ("MIN", false), ("MAX", false)]
      ++ [("PMIN", false), ("PMAX", false), ("UL", false)]
      ++ [("VAHZ", false), ("AUTO", false), ("AC", false), ("DC", false)]
      ++ [("LPF", false), ("Hold", false), ("VBAR", false)]).map Prod.fst
      = flagNames18) ∧
    flagNames18.Nodup ∧
    ∀ n ∈ flagNames18,
      (([(("OL" : String), false), ("BATT", false), ("Sign", false),
          ("Judge", false)]
        ++ [("RMR", false), ("REL", false), ("MIN", false), ("MAX", false)]
        ++ [("PMIN", false), ("PMAX", false), ("UL", false)]
        ++ [("VAHZ", false), ("AUTO", false), ("AC", false), ("DC", false)]
        ++ [("LPF", false), ("Hold", false), ("VBAR", false)]).lookup
          n).isSome = true :=
  C9_flag_names_complete 0b0110000 0b0110000 0b0110000 0b0110000 0b0110000
    _ _ _ _ _ rfl rfl rfl rfl rfl

/-- Claim C10: an ADP packet (function byte `0b0111110`) whose range
code is present in the ADP table and whose flag bytes pass their
templates with VAHZ clear never decodes to a Reading: the range entry
is a label string, and once the digits and flags are otherwise valid
the failure is exactly the `TypeError` raised when the label is used in
arithmetic during value assembly. -/
theorem C10_adp_label_crash (p : Packet) (re : RangeEntry)
    (hf : p.function = 0b0111110)
    (hr : RANGE_ADP p.range = some re)
    (hTP : templatesPass p)
    (hV : getFlag (packetFlags p) "VAHZ" = false) :
    (∀ r : Reading, parse p ≠ Except.ok r) ∧
    ((getFlag (packetFlags p) "AC" && getFlag (packetFlags p) "DC")
        = false →
      ∀ d4 d3 d2 d1 d0 : ℕ,
        DIGITS p.digit4 = some d4 → DIGITS p.digit3 = some d3 →
        DIGITS p.digit2 = some d2 → DIGITS p.digit1 = some d1 →
        DIGITS p.digit0 = some d0 →
        parse p = Except.error ParseError.labelRangeArith) := by
  obtain ⟨s, rfl⟩ := RANGE_ADP_label _ _ hr
  have hF : FUNCTION p.function = some ("ADP", some RANGE_ADP, "") := by
    rw [hf]; rfl
  have hTP' : decodeFlags p.status p.option1 p.option2 p.option3 p.option4
      = some (packetFlags p) := hTP
  have hcore : ∀ h : Except ParseError Reading,
      h = parse p →
      (getFlag (packetFlags p) "AC" && getFlag (packetFlags p) "DC")
          = false →
      ∀ d4 d3 d2 d1 d0 : ℕ,
        DIGITS p.digit4 = some d4 → DIGITS p.digit3 = some d3 →
        DIGITS p.digit2 = some d2 → DIGITS p.digit1 = some d1 →
        DIGITS p.digit0 = some d0 →
        parse p = Except.error ParseError.labelRangeArith := by
    intro _ _ hACDC d4 d3 d2 d1 d0 h4 h3 h2 h1 h0
    simp only [parse, hF, hr, hTP', hACDC, hV, Bool.false_and,
      h4, h3, h2, h1, h0]
    simp
  constructor
  · intro r hok
    simp only [parse, hF, hr, hTP', hV, Bool.false_and] at hok
    split at hok
    · exact absurd hok (by simp)
    split at hok
    swap
    · exact absurd hok (by simp)
    split at hok
    · exact absurd hok (by simp)
    case _ hACDC _ _ _ _ _ _ _ _ _ _ _ scale prec dunit heqM =>
    simp [show ¬(("ADP" : String) = "frequency") from by decide,
      show ¬(("ADP" : String) = "temperature") from by decide] at heqM
  · exact hcore (parse p) rfl

/-- Witness for C10 at the concrete ADP packet. -/
theorem C10_adp_label_crash_witness :
    (∀ r : Reading, parse pktADP ≠ Except.ok r) ∧
    ((getFlag (packetFlags pktADP) "AC" && getFlag (packetFlags pktADP) "DC")
        = false →
      ∀ d4 d3 d2 d1 d0 : ℕ,
        DIGITS pktADP.digit4 = some d4 → DIGITS pktADP.digit3 = some d3 →
        DIGITS pktADP.digit2 = some d2 → DIGITS pktADP.digit1 = some d1 →
        DIGITS pktADP.digit0 = some d0 →
        parse pktADP = Except.error ParseError.labelRangeArith) :=
  C10_adp_label_crash pktADP (RangeEntry.label "ADP4") rfl rfl rfl rfl
